import Mathlib

/-!
Verification of the metabolites dashboard (`app.py`).

The app loads three CSV datasets (production, utilization, antimicrobial),
cleans two integer columns, and serves aggregate views: a broad statistics
table partitioned by type-strain status, checkbox-driven filtering, and
top-10 rankings.

The embedding models:
* a raw CSV table (`RawTable`) as an ordered list of named columns whose
  cells are either numeric (possibly missing, i.e. NaN) or text — this is
  what `pd.read_csv` with the dtype mapping of the app produces;
* `load_and_clean_data` over an `Option RawTable` (`none` = unreadable
  file), with pandas `KeyError` semantics for the column accesses it makes
  (`read_csv` silently ignores `dtype` keys naming absent columns, so only
  the columns the function actually touches can fail);
* a cleaned data frame (`DF`) row-wise, with the four fixed leading
  columns and the metabolite block (positions >= 4) as a list of ints;
* pandas boolean-Series indexing with a RangeIndex (`maskSelect`): when the
  mask Series is at least as long as the indexed frame the mask is
  reindexed (truncated) silently, and when it is shorter the reindex hits a
  missing label and raises `IndexingError`;
* `Series.value_counts` as: frequency table built in first-occurrence
  order of the distinct values, then stable-sorted descending by count
  (pandas sorts `value_counts` with a stable sort, so ties keep
  first-appearance order), modelled with `List.mergeSort`, which is stable.
-/

namespace AMR

/-- A cell of a raw CSV column: a numeric cell that may be missing (NaN),
or a text cell. -/
inductive Cell where
  | num (v : Option Int)
  | txt (s : String)
deriving DecidableEq, Repr

/-- A raw table as read by `pd.read_csv`: ordered named columns. -/
structure RawTable where
  cols : List (String × List Cell)
deriving DecidableEq, Repr

/-- Does the table have a column with the given name? -/
def RawTable.hasCol (t : RawTable) (name : String) : Bool :=
  t.cols.any (fun c => c.1 == name)

/-- Apply `f` to every cell of every column named `name` (models
`df[name] = df[name].map(f)`-style column rewriting). -/
def RawTable.mapCol (t : RawTable) (name : String) (f : Cell → Cell) : RawTable :=
  ⟨t.cols.map (fun c => if c.1 == name then (c.1, c.2.map f) else c)⟩

/-- Remove every column named `name` (models `df.drop(columns=[name])`). -/
def RawTable.dropCol (t : RawTable) (name : String) : RawTable :=
  ⟨t.cols.filter (fun c => c.1 != name)⟩

/-- Look up the (first) column with the given name. -/
def RawTable.getCol (t : RawTable) (name : String) : Option (List Cell) :=
  (t.cols.find? (fun c => c.1 == name)).map Prod.snd

/-- Model of `fillna(0)` on a numeric cell: a missing value becomes `0`. -/
def fillnaZero : Cell → Cell
  | Cell.num none => Cell.num (some 0)
  | c => c

/-- Function `load_and_clean_data` from `app.py`.  `none` models a path that cannot
be read (`FileNotFoundError` from `read_csv`).  The dtype mapping passed to
`read_csv` is ignored for absent columns, so reading succeeds whenever the
file does; the subsequent column accesses `df[ID]`, `df[is_type_strain_header]`
and `df.drop(columns=[strain_number_header])` raise `KeyError` when their
column is absent, in that order. -/
def load_and_clean_data (file : Option RawTable) : Except String RawTable :=
  match file with
  | none => Except.error "FileNotFoundError"
  | some df =>
    if df.hasCol "ID" then
      let df1 := df.mapCol "ID" fillnaZero
      if df1.hasCol "is_type_strain_header" then
        let df2 := df1.mapCol "is_type_strain_header" fillnaZero
        if df2.hasCol "strain_number_header" then
          Except.ok (df2.dropCol "strain_number_header")
        else Except.error "KeyError: strain_number_header"
      else Except.error "KeyError: is_type_strain_header"
    else Except.error "KeyError: ID"

/-- A row of a cleaned data frame: the four fixed leading columns, then the
metabolite block (all columns at positions >= 4). -/
structure Row where
  id : Int
  species : String
  is_type_strain : Int
  designation : String
  mets : List Int
deriving DecidableEq, Repr

/-- A cleaned data frame: metabolite column names plus the rows, indexed by
a default RangeIndex (position = label). -/
structure DF where
  metNames : List String
  rows : List Row
deriving DecidableEq, Repr

/-- Function `count_metabolites` from `app.py`: `df[df.columns[4:]].sum()` — the
per-metabolite-column sums, as a series keyed by column name in column
order. -/
def count_metabolites (df : DF) : List (String × Int) :=
  df.metNames.enum.map
    (fun p => (p.2, (df.rows.map (fun r => r.mets.getD p.1 0)).sum))

/-- Function `filter_by_type_strain` from `app.py`:
`df[df[is_type_strain_header] == value]`. -/
def filter_by_type_strain (df : DF) (v : Int) : DF :=
  ⟨df.metNames, df.rows.filter (fun r => r.is_type_strain == v)⟩

/-- Rows kept by a boolean mask: the rows at `true` positions, in order
(surplus mask entries beyond the rows are ignored). -/
def selRows (mask : List Bool) (rows : List Row) : List Row :=
  ((mask.zip rows).filter (fun p => p.1)).map Prod.snd

/-- Pandas boolean-Series indexing `df[mask]` when both carry default
RangeIndexes: the mask is reindexed to the index of the frame.  If the mask
is shorter than the frame, some frame label is missing from the mask and
pandas raises `IndexingError`; otherwise the surplus mask entries are
silently dropped and the rows at `true` positions are kept in order. -/
def maskSelect (mask : List Bool) (rows : List Row) : Except String (List Row) :=
  if rows.length ≤ mask.length then Except.ok (selRows mask rows)
  else Except.error "IndexingError"

/-- The boolean mask `df[is_type_strain_header] == p` over a frame. -/
def prodMask (df : DF) (p : Int) : List Bool :=
  df.rows.map (fun r => r.is_type_strain == p)

/-- Order of `Series.unique`: distinct values in first-occurrence order. -/
def uniqueFirst (l : List String) : List String :=
  l.foldl (fun acc a => if a ∈ acc then acc else acc ++ [a]) []

/-- Grand total of a series, `series.sum()`. -/
def seriesTotal (s : List (String × Int)) : Int :=
  (s.map Prod.snd).sum

/-- Statistics of one partition in `compute_statistics`: species count and
the three metabolite grand totals for partition value `p`, all three tables
masked by the `is_type_strain_header == p` mask of `prod_df` (positional
alignment), exactly as lines 46–49 / 52–55 of `app.py` do. -/
def partStats (prod_df util_df anti_df : DF) (p : Int) :
    Except String (Int × Int × Int × Int) := do
  let mask := prodMask prod_df p
  let prows ← maskSelect mask prod_df.rows
  let sc : Int := (uniqueFirst (prows.map Row.species)).length
  let psum := seriesTotal (count_metabolites ⟨prod_df.metNames, prows⟩)
  let urows ← maskSelect mask util_df.rows
  let usum := seriesTotal (count_metabolites ⟨util_df.metNames, urows⟩)
  let arows ← maskSelect mask anti_df.rows
  let asum := seriesTotal (count_metabolites ⟨anti_df.metNames, arows⟩)
  Except.ok (sc, psum, usum, asum)

/-- A row of the broad statistics table. -/
structure StatsRow where
  category : String
  speciesCount : Int
  prodMet : Int
  utilMet : Int
  antiMet : Int
deriving DecidableEq, Repr

/-- Function `compute_statistics` from `app.py`: the three-row summary table
(Type Strain, Non-Type Strain, Total). -/
def compute_statistics (prod_df util_df anti_df : DF) :
    Except String (List StatsRow) := do
  let t ← partStats prod_df util_df anti_df 1
  let n ← partStats prod_df util_df anti_df 0
  Except.ok
    [⟨"Type Strain", t.1, t.2.1, t.2.2.1, t.2.2.2⟩,
     ⟨"Non-Type Strain", n.1, n.2.1, n.2.2.1, n.2.2.2⟩,
     ⟨"Total", t.1 + n.1, t.2.1 + n.2.1, t.2.2.1 + n.2.2.1, t.2.2.2 + n.2.2.2⟩]

/-- The frequency table underlying `Series.value_counts`: one entry per
distinct value in first-occurrence order, paired with its occurrence
count. -/
def freqTable (l : List String) : List (String × Nat) :=
  (uniqueFirst l).map (fun a => (a, (l.filter (fun x => x == a)).length))

/-- Model of `Series.value_counts()`: the frequency table stable-sorted descending
by count (ties keep first-occurrence order). -/
def value_counts (l : List String) : List (String × Nat) :=
  (freqTable l).mergeSort (fun x y => decide (y.2 ≤ x.2))

/-- Top species ranking of the app, `df[species].value_counts().head(n)`
(called with `n = 10`). -/
def top_species (df : DF) (n : Nat) : List (String × Nat) :=
  (value_counts (df.rows.map Row.species)).take n

/-- The checkbox dispatch of `app.py` (lines 84–96): exactly one box
checked filters all three frames to that partition, each frame on its own
`is_type_strain_header` column; otherwise the frames pass through
unfiltered. -/
def dispatch_filter (show1 show0 : Bool) (prod_df util_df anti_df : DF) :
    DF × DF × DF :=
  if show1 && !show0 then
    (filter_by_type_strain prod_df 1, filter_by_type_strain util_df 1,
     filter_by_type_strain anti_df 1)
  else if !show1 && show0 then
    (filter_by_type_strain prod_df 0, filter_by_type_strain util_df 0,
     filter_by_type_strain anti_df 0)
  else
    (prod_df, util_df, anti_df)

/-! ### Derived definitions used to state the claims -/

/-- Distinct-species count (`len(unique())`) among the rows of `P` in
partition `p`. -/
def speciesCountP (P : DF) (p : Int) : Int :=
  ((uniqueFirst ((selRows (prodMask P p) P.rows).map Row.species)).length : Int)

/-- Grand metabolite total of the rows of `other` selected by the
partition-`p` mask of `P` (positional alignment). -/
def maskedMetTotal (P other : DF) (p : Int) : Int :=
  seriesTotal (count_metabolites ⟨other.metNames, selRows (prodMask P p) other.rows⟩)

/-- Formula of the spec for `utilSum(p)` and `antiSum(p)`: total of
`sumMetabolites` applied to the rows of `other` selected by the
partition-`p` mask of `prod` (positional alignment, not the own
`is_type_strain` column of `other`). -/
def specCrossMaskedTotal (P other : DF) (p : Int) : Int :=
  seriesTotal (count_metabolites
    ⟨other.metNames, ((other.rows.zip (prodMask P p)).filter Prod.snd).map Prod.fst⟩)

/-- Numeric-cell test: true on the cells the float dtype coercion of
`read_csv` produces for the two integer columns. -/
def Cell.isNum : Cell → Bool
  | Cell.num _ => true
  | Cell.txt _ => false

/-! ### Concrete example data -/

/-- Row constructor for the concrete test frames. -/
def exRow (sp : String) (t : Int) (ms : List Int) : Row := ⟨0, sp, t, "d", ms⟩

/-- Production frame of the end-to-end example of the spec. -/
def exProd : DF := ⟨["m1", "m2"], [exRow "A" 1 [2, 0], exRow "B" 0 [0, 3]]⟩

/-- Utilization frame whose own partition differs from the one of `exProd`. -/
def exUtil : DF := ⟨["u1"], [exRow "X" 0 [5], exRow "Y" 1 [7]]⟩

/-- Antimicrobial frame aligned with `exProd`. -/
def exAnti : DF := ⟨["a1"], [exRow "X" 1 [1], exRow "Y" 1 [10]]⟩

/-- A one-row utilization frame (shorter than `exProd`). -/
def exUtilShort : DF := ⟨["u1"], [exRow "X" 0 [5]]⟩

/-- A three-row utilization frame (longer than `exProd`). -/
def exUtilLong : DF := ⟨["u1"], [exRow "X" 0 [5], exRow "Y" 1 [7], exRow "Z" 0 [9]]⟩

/-- A frame where the same species sits in both partitions. -/
def exBacillus : DF := ⟨[], [exRow "Bacillus" 1 [], exRow "Bacillus" 0 []]⟩

/-- A frame with no rows. -/
def exEmpty : DF := ⟨["m1"], []⟩

/-- The summary table computed from `exProd`, `exUtil`, `exAnti`. -/
def statsEx : List StatsRow :=
  [⟨"Type Strain", 1, 2, 5, 1⟩, ⟨"Non-Type Strain", 1, 3, 7, 10⟩,
   ⟨"Total", 2, 5, 12, 11⟩]

/-- The summary table computed from three copies of `exBacillus`. -/
def statsBacillus : List StatsRow :=
  [⟨"Type Strain", 1, 0, 0, 0⟩, ⟨"Non-Type Strain", 1, 0, 0, 0⟩,
   ⟨"Total", 2, 0, 0, 0⟩]

/-- A species column with value counts A:5, B:5, C:3, where A is
encountered before B. -/
def exSpeciesList : List String :=
  ["A", "B", "C", "A", "B", "C", "A", "B", "C", "A", "B", "A", "B"]

/-- A raw table with all five fixed columns, blank numeric cells included. -/
def exRawFull : RawTable :=
  ⟨[("ID", [Cell.num none, Cell.num (some 3)]),
    ("species", [Cell.txt "a", Cell.txt "b"]),
    ("is_type_strain_header", [Cell.num (some 1), Cell.num none]),
    ("designation_header", [Cell.txt "x", Cell.txt "y"]),
    ("strain_number_header", [Cell.txt "s1", Cell.txt "s2"]),
    ("met1", [Cell.num (some 1), Cell.num (some 0)])]⟩

/-- The cleaned table that `load_and_clean_data` produces from `exRawFull`. -/
def exCleanFull : RawTable :=
  ⟨[("ID", [Cell.num (some 0), Cell.num (some 3)]),
    ("species", [Cell.txt "a", Cell.txt "b"]),
    ("is_type_strain_header", [Cell.num (some 1), Cell.num (some 0)]),
    ("designation_header", [Cell.txt "x", Cell.txt "y"]),
    ("met1", [Cell.num (some 1), Cell.num (some 0)])]⟩

/-- A raw table whose header lacks the species and designation columns. -/
def exRawNoSpecies : RawTable :=
  ⟨[("ID", [Cell.num none]), ("is_type_strain_header", [Cell.num (some 1)]),
    ("strain_number_header", [Cell.txt "s1"]), ("met1", [Cell.num (some 2)])]⟩

/-! ### Helper lemmas -/

lemma length_prodMask (df : DF) (p : Int) : (prodMask df p).length = df.rows.length := by
  simp [prodMask]

lemma ok_bind {ε α β : Type} (a : α) (f : α → Except ε β) :
    (Bind.bind (Except.ok a) f : Except ε β) = f a := rfl

lemma error_bind {ε α β : Type} (e : ε) (f : α → Except ε β) :
    (Bind.bind (Except.error e) f : Except ε β) = Except.error e := rfl

lemma maskSelect_ok {mask : List Bool} {rows : List Row} (h : rows.length ≤ mask.length) :
    maskSelect mask rows = Except.ok (selRows mask rows) := by
  simp [maskSelect, h]

lemma maskSelect_err {mask : List Bool} {rows : List Row} (h : mask.length < rows.length) :
    maskSelect mask rows = Except.error "IndexingError" := by
  rw [maskSelect, if_neg (by omega)]

lemma partStats_eq (P U A : DF) (p : Int)
    (hu : U.rows.length ≤ P.rows.length) (ha : A.rows.length ≤ P.rows.length) :
    partStats P U A p = Except.ok
      (speciesCountP P p, maskedMetTotal P P p, maskedMetTotal P U p, maskedMetTotal P A p) := by
  have hp : P.rows.length ≤ (prodMask P p).length := by rw [length_prodMask]
  have hu2 : U.rows.length ≤ (prodMask P p).length := by rw [length_prodMask]; exact hu
  have ha2 : A.rows.length ≤ (prodMask P p).length := by rw [length_prodMask]; exact ha
  simp [partStats, maskSelect_ok hp, maskSelect_ok hu2, maskSelect_ok ha2,
    speciesCountP, maskedMetTotal, ok_bind]

lemma partStats_err (P U A : DF) (p : Int)
    (h : ¬ (U.rows.length ≤ P.rows.length ∧ A.rows.length ≤ P.rows.length)) :
    partStats P U A p = Except.error "IndexingError" := by
  have hp : P.rows.length ≤ (prodMask P p).length := by rw [length_prodMask]
  by_cases hu : U.rows.length ≤ P.rows.length
  · have ha : ¬ A.rows.length ≤ P.rows.length := fun ha => h ⟨hu, ha⟩
    have hu2 : U.rows.length ≤ (prodMask P p).length := by rw [length_prodMask]; exact hu
    have ha2 : (prodMask P p).length < A.rows.length := by rw [length_prodMask]; omega
    simp [partStats, maskSelect_ok hp, maskSelect_ok hu2, maskSelect_err ha2,
      ok_bind, error_bind]
  · have hu2 : (prodMask P p).length < U.rows.length := by rw [length_prodMask]; omega
    simp [partStats, maskSelect_ok hp, maskSelect_err hu2, ok_bind, error_bind]

lemma partStats_isOk_iff (P U A : DF) (p : Int) :
    (partStats P U A p).isOk = true ↔
      U.rows.length ≤ P.rows.length ∧ A.rows.length ≤ P.rows.length := by
  constructor
  · intro h
    by_cases hok : U.rows.length ≤ P.rows.length ∧ A.rows.length ≤ P.rows.length
    · exact hok
    · rw [partStats_err P U A p hok] at h
      simp [Except.isOk, Except.toBool] at h
  · rintro ⟨hu, ha⟩
    rw [partStats_eq P U A p hu ha]
    rfl

lemma compute_statistics_eq (P U A : DF)
    (hu : U.rows.length ≤ P.rows.length) (ha : A.rows.length ≤ P.rows.length) :
    compute_statistics P U A = Except.ok
      [⟨"Type Strain", speciesCountP P 1, maskedMetTotal P P 1,
        maskedMetTotal P U 1, maskedMetTotal P A 1⟩,
       ⟨"Non-Type Strain", speciesCountP P 0, maskedMetTotal P P 0,
        maskedMetTotal P U 0, maskedMetTotal P A 0⟩,
       ⟨"Total", speciesCountP P 1 + speciesCountP P 0,
        maskedMetTotal P P 1 + maskedMetTotal P P 0,
        maskedMetTotal P U 1 + maskedMetTotal P U 0,
        maskedMetTotal P A 1 + maskedMetTotal P A 0⟩] := by
  simp [compute_statistics, partStats_eq P U A 1 hu ha, partStats_eq P U A 0 hu ha,
    ok_bind]

lemma compute_statistics_isOk_iff (P U A : DF) :
    (compute_statistics P U A).isOk = true ↔
      U.rows.length ≤ P.rows.length ∧ A.rows.length ≤ P.rows.length := by
  constructor
  · intro h
    cases h1 : partStats P U A 1 with
    | error e => simp [compute_statistics, h1, error_bind, Except.isOk, Except.toBool] at h
    | ok t =>
      have : (partStats P U A 1).isOk = true := by rw [h1]; rfl
      exact (partStats_isOk_iff P U A 1).mp this
  · rintro ⟨hu, ha⟩
    rw [compute_statistics_eq P U A hu ha]
    rfl

lemma compute_statistics_err (P U A : DF)
    (h : ¬ (U.rows.length ≤ P.rows.length ∧ A.rows.length ≤ P.rows.length)) :
    compute_statistics P U A = Except.error "IndexingError" := by
  simp [compute_statistics, partStats_err P U A 1 h, error_bind]

lemma selRows_zip_comm (mask : List Bool) (rows : List Row) :
    selRows mask rows = ((rows.zip mask).filter Prod.snd).map Prod.fst := by
  induction mask generalizing rows with
  | nil => cases rows <;> simp [selRows]
  | cons b mask ih =>
    cases rows with
    | nil => simp [selRows]
    | cons r rows =>
      have ih2 := ih rows
      cases b <;> simp [selRows, List.filter] at ih2 ⊢ <;> exact ih2

lemma maskedMetTotal_eq_spec (P other : DF) (p : Int) :
    maskedMetTotal P other p = specCrossMaskedTotal P other p := by
  rw [maskedMetTotal, specCrossMaskedTotal, selRows_zip_comm]

lemma fst_mapCol_entry (c : String × List Cell) (name : String) (f : Cell → Cell) :
    (if c.1 == name then (c.1, c.2.map f) else c).1 = c.1 := by
  split <;> rfl

lemma hasCol_mapCol (t : RawTable) (name m : String) (f : Cell → Cell) :
    (t.mapCol name f).hasCol m = t.hasCol m := by
  obtain ⟨cols⟩ := t
  simp only [RawTable.mapCol, RawTable.hasCol]
  induction cols with
  | nil => rfl
  | cons c cols ih =>
    simp only [List.map_cons, List.any_cons, ih]
    rw [congrArg (fun x => x == m) (fst_mapCol_entry c name f)]

lemma find?_mapCol (cols : List (String × List Cell)) (name m : String) (f : Cell → Cell) :
    (cols.map (fun c => if c.1 == name then (c.1, c.2.map f) else c)).find?
        (fun c => c.1 == m)
      = (cols.find? (fun c => c.1 == m)).map
          (fun c => if c.1 == name then (c.1, c.2.map f) else c) := by
  induction cols with
  | nil => rfl
  | cons c cols ih =>
    have hg : ((if c.1 == name then (c.1, c.2.map f) else c).1 == m) = (c.1 == m) :=
      congrArg (fun x => x == m) (fst_mapCol_entry c name f)
    by_cases hm : (c.1 == m) = true
    · rw [List.map_cons,
        @List.find?_cons_of_pos (String × List Cell) (fun c => c.1 == m) _ _ (hg.trans hm),
        @List.find?_cons_of_pos (String × List Cell) (fun c => c.1 == m) _ _ hm]
      rfl
    · rw [List.map_cons,
        @List.find?_cons_of_neg (String × List Cell) (fun c => c.1 == m) _ _
          (fun hx => hm (hg ▸ hx)),
        @List.find?_cons_of_neg (String × List Cell) (fun c => c.1 == m) _ _ hm, ih]

lemma getCol_mapCol_self (t : RawTable) (name : String) (f : Cell → Cell) :
    (t.mapCol name f).getCol name = (t.getCol name).map (List.map f) := by
  obtain ⟨cols⟩ := t
  simp only [RawTable.mapCol, RawTable.getCol, find?_mapCol]
  cases hf : cols.find? (fun c => c.1 == name) with
  | none => rfl
  | some c =>
    have hc : (c.1 == name) = true := by simpa using List.find?_some hf
    have hceq : c.1 = name := by simpa using hc
    simp [hceq]

lemma getCol_mapCol_ne (t : RawTable) {name m : String} (h : m ≠ name) (f : Cell → Cell) :
    (t.mapCol name f).getCol m = t.getCol m := by
  obtain ⟨cols⟩ := t
  simp only [RawTable.mapCol, RawTable.getCol, find?_mapCol]
  cases hf : cols.find? (fun c => c.1 == m) with
  | none => rfl
  | some c =>
    have hc : c.1 = m := by
      have := List.find?_some hf
      simpa using this
    have hne : c.1 ≠ name := by rw [hc]; exact h
    simp [hne]

lemma find?_filter_ne (cols : List (String × List Cell)) (name m : String) (h : m ≠ name) :
    (cols.filter (fun c => c.1 != name)).find? (fun c => c.1 == m)
      = cols.find? (fun c => c.1 == m) := by
  induction cols with
  | nil => rfl
  | cons c cols ih =>
    by_cases hn : (c.1 != name) = true
    · rw [@List.filter_cons_of_pos (String × List Cell) (fun c => c.1 != name) _ _ hn]
      by_cases hm : (c.1 == m) = true
      · rw [@List.find?_cons_of_pos (String × List Cell) (fun c => c.1 == m) _ _ hm,
          @List.find?_cons_of_pos (String × List Cell) (fun c => c.1 == m) _ _ hm]
      · rw [@List.find?_cons_of_neg (String × List Cell) (fun c => c.1 == m) _ _ hm,
          @List.find?_cons_of_neg (String × List Cell) (fun c => c.1 == m) _ _ hm, ih]
    · have hcn : c.1 = name := by simpa using hn
      rw [@List.filter_cons_of_neg (String × List Cell) (fun c => c.1 != name) _ _ hn, ih,
        @List.find?_cons_of_neg (String × List Cell) (fun c => c.1 == m) _ _ ?_]
      intro hm
      have hcm : c.1 = m := by simpa using hm
      exact h (hcm ▸ hcn ▸ rfl)

lemma getCol_dropCol_ne (t : RawTable) {name m : String} (h : m ≠ name) :
    (t.dropCol name).getCol m = t.getCol m := by
  obtain ⟨cols⟩ := t
  simp only [RawTable.dropCol, RawTable.getCol, find?_filter_ne cols name m h]

lemma names_mapCol (t : RawTable) (name : String) (f : Cell → Cell) :
    (t.mapCol name f).cols.map Prod.fst = t.cols.map Prod.fst := by
  obtain ⟨cols⟩ := t
  simp only [RawTable.mapCol, List.map_map]
  apply List.map_congr_left
  intro c hc
  simp only [Function.comp]
  exact fst_mapCol_entry c name f

lemma names_dropCol (t : RawTable) (name : String) :
    (t.dropCol name).cols.map Prod.fst
      = (t.cols.map Prod.fst).filter (fun n => n != name) := by
  obtain ⟨cols⟩ := t
  simp only [RawTable.dropCol]
  induction cols with
  | nil => rfl
  | cons c cols ih =>
    by_cases hn : (c.1 != name) = true
    · rw [@List.filter_cons_of_pos (String × List Cell) (fun c => c.1 != name) _ _ hn,
        List.map_cons, List.map_cons,
        @List.filter_cons_of_pos String (fun n => n != name) _ _ hn, ih]
    · rw [@List.filter_cons_of_neg (String × List Cell) (fun c => c.1 != name) _ _ hn,
        List.map_cons,
        @List.filter_cons_of_neg String (fun n => n != name) _ _ hn, ih]

lemma hasCol_iff_getCol (t : RawTable) (name : String) :
    t.hasCol name = true ↔ ∃ col, t.getCol name = some col := by
  constructor
  · intro h
    cases hf : t.cols.find? (fun c => c.1 == name) with
    | some c => exact ⟨c.2, by rw [RawTable.getCol, hf]; rfl⟩
    | none =>
      exfalso
      rw [RawTable.hasCol, List.any_eq_true] at h
      obtain ⟨c, hc, hp⟩ := h
      exact (List.find?_eq_none.mp hf c hc) hp
  · rintro ⟨col, hcol⟩
    rw [RawTable.getCol] at hcol
    cases hf : t.cols.find? (fun c => c.1 == name) with
    | none => rw [hf] at hcol; exact absurd hcol (by simp)
    | some c =>
      rw [RawTable.hasCol, List.any_eq_true]
      exact ⟨c, List.mem_of_find?_eq_some hf, by simpa using List.find?_some hf⟩

lemma mapped_col_spec (rcol : List Cell)
    (hnum : ∀ c ∈ rcol, Cell.isNum c = true) :
    (rcol.map fillnaZero).length = rcol.length ∧
    (∀ i, i < rcol.length →
      (rcol.map fillnaZero).getD i (Cell.txt "") =
        (if rcol.getD i (Cell.txt "") = Cell.num none then Cell.num (some 0)
         else rcol.getD i (Cell.txt ""))) ∧
    (∀ c ∈ rcol.map fillnaZero, ∃ v : Int, c = Cell.num (some v)) := by
  refine ⟨List.length_map _ _, ?_, ?_⟩
  · intro i hi
    have hmap := List.getD_map rcol (Cell.txt "") (n := i) fillnaZero
    rw [show fillnaZero (Cell.txt "") = Cell.txt "" from rfl] at hmap
    rw [hmap]
    cases hcell : rcol.getD i (Cell.txt "") with
    | num v => cases v <;> simp [fillnaZero]
    | txt s => simp [fillnaZero]
  · intro c hc
    obtain ⟨c0, hc0, rfl⟩ := List.mem_map.mp hc
    have hn := hnum c0 hc0
    cases c0 with
    | num v =>
      cases v with
      | none => exact ⟨0, rfl⟩
      | some w => exact ⟨w, rfl⟩
    | txt s => exact absurd hn (by simp [Cell.isNum])

/-! ### Claims -/

/-- C4: for every table whose `is_type_strain` values are all 0 or 1, the
concatenation (as a row multiset) of the value-1 filter and the value-0
filter is exactly the rows of the table; moreover each filtered result
preserves original row order (it is a subsequence of the rows) and all
columns. -/
theorem c4_partition_reconstructs (df : DF)
    (hvals : ∀ r ∈ df.rows, r.is_type_strain = 0 ∨ r.is_type_strain = 1) :
    ((filter_by_type_strain df 1).rows ++ (filter_by_type_strain df 0).rows).Perm df.rows ∧
    ((filter_by_type_strain df 1).rows).Sublist df.rows ∧
    ((filter_by_type_strain df 0).rows).Sublist df.rows ∧
    (filter_by_type_strain df 1).metNames = df.metNames ∧
    (filter_by_type_strain df 0).metNames = df.metNames := by
  refine ⟨?_, List.filter_sublist df.rows, List.filter_sublist df.rows, rfl, rfl⟩
  have hzero : df.rows.filter (fun r => r.is_type_strain == 0)
      = df.rows.filter (fun r => !(r.is_type_strain == 1)) := by
    apply List.filter_congr
    intro r hr
    rcases hvals r hr with h | h <;> rw [h] <;> decide
  show (df.rows.filter (fun r => r.is_type_strain == 1) ++
      df.rows.filter (fun r => r.is_type_strain == 0)).Perm df.rows
  rw [hzero]
  exact List.filter_append_perm _ df.rows

/-- C4 witness: the partition filters of a concrete frame reassemble it. -/
theorem c4_witness :
    ((filter_by_type_strain exProd 1).rows ++ (filter_by_type_strain exProd 0).rows).Perm
      exProd.rows :=
  (c4_partition_reconstructs exProd (by decide)).1

/-- C5: with both checkboxes selected or both deselected, the dispatch
passes all three tables through unfiltered; with exactly one selected,
each of the three tables is filtered to that partition value on its own
`is_type_strain` column. -/
theorem c5_checkbox_dispatch (P U A : DF) :
    dispatch_filter true true P U A = (P, U, A) ∧
    dispatch_filter false false P U A = (P, U, A) ∧
    dispatch_filter true false P U A =
      (filter_by_type_strain P 1, filter_by_type_strain U 1, filter_by_type_strain A 1) ∧
    dispatch_filter false true P U A =
      (filter_by_type_strain P 0, filter_by_type_strain U 0, filter_by_type_strain A 0) :=
  ⟨rfl, rfl, rfl, rfl⟩

/-- C6: the top-species ranking returns at most `n` entries, no entry has a
count higher than any entry preceding it, and the result is empty when the
table is empty. -/
theorem c6_top_species_shape (df : DF) (n : Nat) :
    (top_species df n).length ≤ n ∧
    (top_species df n).Pairwise (fun x y => y.2 ≤ x.2) ∧
    (df.rows = [] → top_species df n = []) := by
  refine ⟨List.length_take_le n _, ?_, ?_⟩
  · have hs := @List.sorted_mergeSort (String × Nat)
      (fun x y => decide (y.2 ≤ x.2))
      (by intro a b c hab hbc; simp only [decide_eq_true_eq] at *; omega)
      (by intro a b; simp only [Bool.or_eq_true, decide_eq_true_eq]; omega)
      (freqTable (df.rows.map Row.species))
    have hs2 : (value_counts (df.rows.map Row.species)).Pairwise
        (fun x y => y.2 ≤ x.2) := by
      rw [value_counts]
      exact hs.imp (fun hb => by simpa using hb)
    exact List.Pairwise.sublist (List.take_sublist n _) hs2
  · intro hrows
    simp [top_species, value_counts, freqTable, uniqueFirst, hrows]

/-- C6 witness: shape facts instantiated at the empty frame, where the
emptiness hypothesis is dischargeable. -/
theorem c6_witness :
    (top_species exEmpty 10).length ≤ 10 ∧
    (top_species exEmpty 10).Pairwise (fun x y => y.2 ≤ x.2) ∧
    top_species exEmpty 10 = [] := by
  have h := c6_top_species_shape exEmpty 10
  exact ⟨h.1, h.2.1, h.2.2 rfl⟩

/-- C7: entries with equal counts appear in first-encountered order of the
value in the source column: whenever `x` precedes `y` in the frequency
table (built in first-occurrence order of the distinct values) and their
counts are equal, `x` still precedes `y` in the `value_counts` ranking
(hence in any `head(n)` prefix of it). -/
theorem c7_ties_keep_first_encounter_order (l : List String) (x y : String × Nat)
    (hsub : List.Sublist [x, y] (freqTable l)) (htie : x.2 = y.2) :
    List.Sublist [x, y] (value_counts l) := by
  rw [value_counts]
  exact List.sublist_mergeSort
    (by intro a b c hab hbc; simp only [decide_eq_true_eq] at *; omega)
    (by intro a b; simp only [Bool.or_eq_true, decide_eq_true_eq]; omega)
    (List.pairwise_pair.mpr (by simp [htie]))
    hsub

/-- C7 witness: on a column with counts A:5, B:5, C:3 (A met first), A and
B stay in first-encounter order, and the full ranking is A, B, C. -/
theorem c7_witness :
    List.Sublist [("A", 5), ("B", 5)] (freqTable exSpeciesList) ∧
    List.Sublist [("A", 5), ("B", 5)] (value_counts exSpeciesList) ∧
    value_counts exSpeciesList = [("A", 5), ("B", 5), ("C", 3)] := by
  refine ⟨by decide,
    c7_ties_keep_first_encounter_order exSpeciesList ("A", 5) ("B", 5) (by decide) rfl, ?_⟩
  rw [value_counts, List.mergeSort_of_sorted (by decide)]
  decide

/-- C10: on a table whose `is_type_strain` values all lie in 0 and 1,
filtering by any value outside 0 and 1 returns the empty table with the
same columns; it never fails on such a value. -/
theorem c10_filter_foreign_value (df : DF) (v : Int)
    (hvals : ∀ r ∈ df.rows, r.is_type_strain = 0 ∨ r.is_type_strain = 1)
    (h0 : v ≠ 0) (h1 : v ≠ 1) :
    filter_by_type_strain df v = ⟨df.metNames, []⟩ := by
  rw [filter_by_type_strain]
  have hnil : df.rows.filter (fun r => r.is_type_strain == v) = [] := by
    rw [List.filter_eq_nil_iff]
    intro r hr
    rcases hvals r hr with h | h <;> rw [h] <;> simp <;> omega
  rw [hnil]

/-- C10 witness: filtering a concrete frame by the foreign value 5. -/
theorem c10_witness : filter_by_type_strain exProd 5 = ⟨exProd.metNames, []⟩ :=
  c10_filter_foreign_value exProd 5 (by decide) (by decide) (by decide)

/-- C1: in `compute_statistics`, for each partition value p in 1, 0, the
Util and Anti metabolite totals are computed by masking the util and anti
tables with the partition mask of the prod table (positional alignment),
not with the own `is_type_strain` column of util or anti; on a concrete
input where the two recipes disagree, the code follows the prod mask. -/
theorem c1_util_anti_use_prod_mask (P U A : DF) (stats : List StatsRow)
    (hu : U.rows.length = P.rows.length) (ha : A.rows.length = P.rows.length)
    (h : compute_statistics P U A = Except.ok stats) :
    (stats.map StatsRow.utilMet =
      [specCrossMaskedTotal P U 1, specCrossMaskedTotal P U 0,
       specCrossMaskedTotal P U 1 + specCrossMaskedTotal P U 0] ∧
     stats.map StatsRow.antiMet =
      [specCrossMaskedTotal P A 1, specCrossMaskedTotal P A 0,
       specCrossMaskedTotal P A 1 + specCrossMaskedTotal P A 0]) ∧
    ((statsEx.getD 0 ⟨"", 0, 0, 0, 0⟩).utilMet ≠
        seriesTotal (count_metabolites (filter_by_type_strain exUtil 1)) ∧
      compute_statistics exProd exUtil exAnti = Except.ok statsEx) := by
  constructor
  · rw [compute_statistics_eq P U A (le_of_eq hu) (le_of_eq ha)] at h
    injection h with h
    subst h
    simp [maskedMetTotal_eq_spec]
  · exact ⟨by decide, rfl⟩

/-- C1 witness: the masked-total characterization at concrete aligned
frames. -/
theorem c1_witness :
    statsEx.map StatsRow.utilMet =
      [specCrossMaskedTotal exProd exUtil 1, specCrossMaskedTotal exProd exUtil 0,
       specCrossMaskedTotal exProd exUtil 1 + specCrossMaskedTotal exProd exUtil 0] :=
  (c1_util_anti_use_prod_mask exProd exUtil exAnti statsEx rfl rfl rfl).1.1

/-- C2: whenever `compute_statistics` succeeds, its Total row is the
element-wise arithmetic sum of the Type Strain row and the Non-Type Strain
row, including the Species Count column; on a concrete input where the
same species sits in both partitions, the Total species count is 2 though
the distinct count over the union is 1, i.e. the species is counted
twice. -/
theorem c2_total_row_is_sum (P U A : DF) (stats : List StatsRow)
    (h : compute_statistics P U A = Except.ok stats) :
    (∃ r1 r2 r3, stats = [r1, r2, r3] ∧
      r1.category = "Type Strain" ∧ r2.category = "Non-Type Strain" ∧
      r3.category = "Total" ∧
      r3.speciesCount = r1.speciesCount + r2.speciesCount ∧
      r3.prodMet = r1.prodMet + r2.prodMet ∧
      r3.utilMet = r1.utilMet + r2.utilMet ∧
      r3.antiMet = r1.antiMet + r2.antiMet) ∧
    ((uniqueFirst (exBacillus.rows.map Row.species)).length = 1 ∧
      compute_statistics exBacillus exBacillus exBacillus = Except.ok statsBacillus ∧
      (statsBacillus.getD 2 ⟨"", 0, 0, 0, 0⟩).speciesCount = 2) := by
  constructor
  · have hok : (compute_statistics P U A).isOk = true := by rw [h]; rfl
    obtain ⟨hu, ha⟩ := (compute_statistics_isOk_iff P U A).mp hok
    rw [compute_statistics_eq P U A hu ha] at h
    injection h with h
    exact ⟨_, _, _, h.symm, rfl, rfl, rfl, rfl, rfl, rfl, rfl⟩
  · exact ⟨by decide, rfl, by decide⟩

/-- C2 witness: the Total-row decomposition at concrete aligned frames. -/
theorem c2_witness :
    ∃ r1 r2 r3, statsEx = [r1, r2, r3] ∧
      r1.category = "Type Strain" ∧ r2.category = "Non-Type Strain" ∧
      r3.category = "Total" ∧
      r3.speciesCount = r1.speciesCount + r2.speciesCount ∧
      r3.prodMet = r1.prodMet + r2.prodMet ∧
      r3.utilMet = r1.utilMet + r2.utilMet ∧
      r3.antiMet = r1.antiMet + r2.antiMet :=
  (c2_total_row_is_sum exProd exUtil exAnti statsEx rfl).1

/-- C9 counterexample: the three row counts diverge (the util table has 1
row, prod and anti have 2) yet `compute_statistics` returns a summary,
silently using only a prefix of the mask instead of propagating a fatal
error. -/
theorem c9_counterexample :
    exUtilShort.rows.length ≠ exProd.rows.length ∧
    (compute_statistics exProd exUtilShort exAnti).isOk = true := ⟨by decide, by decide⟩

/-- C9 amended: `compute_statistics` propagates a fatal `IndexingError`
exactly when the util or anti table has more rows than the prod table;
when both have at most as many rows as prod — including diverging, shorter
row counts — it silently returns a summary instead. -/
theorem c9_alignment_error_iff (P U A : DF) :
    ((compute_statistics P U A).isOk = true ↔
      U.rows.length ≤ P.rows.length ∧ A.rows.length ≤ P.rows.length) ∧
    (¬ (U.rows.length ≤ P.rows.length ∧ A.rows.length ≤ P.rows.length) →
      compute_statistics P U A = Except.error "IndexingError") :=
  ⟨compute_statistics_isOk_iff P U A, compute_statistics_err P U A⟩

/-- C9 witness: a util table longer than prod triggers the fatal error. -/
theorem c9_witness :
    compute_statistics exProd exUtilLong exAnti = Except.error "IndexingError" :=
  (c9_alignment_error_iff exProd exUtilLong exAnti).2 (by decide)

/-- C8 counterexample: the species column is absent from the header yet
`load_and_clean_data` succeeds and produces a table, contradicting the
claim that loading fails whenever any of the five required columns is
absent. -/
theorem c8_counterexample :
    exRawNoSpecies.hasCol "species" = false ∧
    (load_and_clean_data (some exRawNoSpecies)).isOk = true := ⟨by decide, by decide⟩

/-- C8 amended: loading fails exactly when the file cannot be read or when
one of the columns ID, is_type_strain, strain_number is absent from the
header; a missing species or designation column alone does not make the
load fail, because the loader never touches those columns. -/
theorem c8_load_failure_conditions :
    load_and_clean_data none = Except.error "FileNotFoundError" ∧
    ∀ rt : RawTable, ((load_and_clean_data (some rt)).isOk = true ↔
      (rt.hasCol "ID" = true ∧ rt.hasCol "is_type_strain_header" = true ∧
       rt.hasCol "strain_number_header" = true)) := by
  refine ⟨rfl, fun rt => ?_⟩
  by_cases h1 : rt.hasCol "ID" = true
  · by_cases h2 : rt.hasCol "is_type_strain_header" = true
    · by_cases h3 : rt.hasCol "strain_number_header" = true
      · simp [load_and_clean_data, h1, h2, h3, hasCol_mapCol, Except.isOk, Except.toBool]
      · simp [load_and_clean_data, h1, h2, h3, hasCol_mapCol, Except.isOk, Except.toBool]
    · simp [load_and_clean_data, h1, h2, hasCol_mapCol, Except.isOk, Except.toBool]
  · simp [load_and_clean_data, h1, Except.isOk, Except.toBool]

/-- C8 witness: a table with the three touched columns present loads. -/
theorem c8_witness : (load_and_clean_data (some exRawFull)).isOk = true :=
  (c8_load_failure_conditions.2 exRawFull).mpr ⟨by decide, by decide, by decide⟩

/-- C3: whenever a file loads successfully (its ID and is_type_strain
columns numeric, as the float dtype coercion of the read guarantees), the
result schema is the source schema minus the strain-number column, and in
each of the ID and is_type_strain columns every missing cell has been
replaced by integer 0, every other cell is unchanged, and every remaining
cell is an integer — no missing value survives the load. -/
theorem c3_load_clean_schema_and_fill (rt out : RawTable)
    (hnum : ∀ name ∈ (["ID", "is_type_strain_header"] : List String),
      ((rt.getCol name).getD []).all Cell.isNum = true)
    (h : load_and_clean_data (some rt) = Except.ok out) :
    out.cols.map Prod.fst
        = (rt.cols.map Prod.fst).filter (fun n => n != "strain_number_header") ∧
    ∀ name ∈ (["ID", "is_type_strain_header"] : List String),
      ∃ rcol ocol, rt.getCol name = some rcol ∧ out.getCol name = some ocol ∧
        ocol.length = rcol.length ∧
        (∀ i, i < rcol.length →
          ocol.getD i (Cell.txt "") =
            (if rcol.getD i (Cell.txt "") = Cell.num none then Cell.num (some 0)
             else rcol.getD i (Cell.txt ""))) ∧
        (∀ c ∈ ocol, ∃ v : Int, c = Cell.num (some v)) := by
  by_cases h1 : rt.hasCol "ID" = true
  swap
  · simp [load_and_clean_data, h1] at h
  by_cases h2 : rt.hasCol "is_type_strain_header" = true
  swap
  · simp [load_and_clean_data, h1, h2, hasCol_mapCol] at h
  by_cases h3 : rt.hasCol "strain_number_header" = true
  swap
  · simp [load_and_clean_data, h1, h2, h3, hasCol_mapCol] at h
  have hout : out = ((rt.mapCol "ID" fillnaZero).mapCol "is_type_strain_header"
      fillnaZero).dropCol "strain_number_header" := by
    simp [load_and_clean_data, h1, h2, h3, hasCol_mapCol] at h
    exact h.symm
  subst hout
  refine ⟨by rw [names_dropCol, names_mapCol, names_mapCol], ?_⟩
  intro name hname
  have hname2 : name = "ID" ∨ name = "is_type_strain_header" := by simpa using hname
  rcases hname2 with rfl | rfl
  · obtain ⟨rcol, hrcol⟩ := (hasCol_iff_getCol rt "ID").mp h1
    have hnumID := hnum "ID" (by simp)
    rw [hrcol] at hnumID
    have hnum2 : ∀ c ∈ rcol, Cell.isNum c = true :=
      List.all_eq_true.mp (by simpa using hnumID)
    have hget : (((rt.mapCol "ID" fillnaZero).mapCol "is_type_strain_header"
        fillnaZero).dropCol "strain_number_header").getCol "ID"
        = some (rcol.map fillnaZero) := by
      rw [getCol_dropCol_ne _ (by decide),
        getCol_mapCol_ne _ (by decide) fillnaZero, getCol_mapCol_self, hrcol]
      rfl
    obtain ⟨hlen, hpt, hint⟩ := mapped_col_spec rcol hnum2
    exact ⟨rcol, rcol.map fillnaZero, hrcol, hget, hlen, hpt, hint⟩
  · obtain ⟨rcol, hrcol⟩ := (hasCol_iff_getCol rt "is_type_strain_header").mp h2
    have hnumT := hnum "is_type_strain_header" (by simp)
    rw [hrcol] at hnumT
    have hnum2 : ∀ c ∈ rcol, Cell.isNum c = true :=
      List.all_eq_true.mp (by simpa using hnumT)
    have hget : (((rt.mapCol "ID" fillnaZero).mapCol "is_type_strain_header"
        fillnaZero).dropCol "strain_number_header").getCol "is_type_strain_header"
        = some (rcol.map fillnaZero) := by
      rw [getCol_dropCol_ne _ (by decide), getCol_mapCol_self,
        getCol_mapCol_ne _ (by decide) fillnaZero, hrcol]
      rfl
    obtain ⟨hlen, hpt, hint⟩ := mapped_col_spec rcol hnum2
    exact ⟨rcol, rcol.map fillnaZero, hrcol, hget, hlen, hpt, hint⟩

/-- C3 witness: the schema equation at a concrete file. -/
theorem c3_witness :
    exCleanFull.cols.map Prod.fst
      = (exRawFull.cols.map Prod.fst).filter (fun n => n != "strain_number_header") :=
  (c3_load_clean_schema_and_fill exRawFull exCleanFull (by decide) rfl).1

end AMR
